import Mathlib

/- Verification development for the modchat repository.

   Shallow embedding of:
   - the model factory (app/backend/src/mod/models/model_factory.py),
   - the vendor registry (app/mod-agent/src/enums/model_vendors.py, of which
     the backend uses an identical copy under mod/enums),
   - the error translation table (errors/error_handlers.py),
   - the chat gateway endpoints /chat, /regenerate, /feedback
     (app/backend/src/mod/app.py),
   - the decomposition server endpoint /tasks/send (app/mod-agent/src/server.py),
   together with theorems settling the spec claims about them. -/

/-- Python values as they occur in the `settings` dictionaries handled by the
gateway.  Floats are modelled by their exact rational value: an IEEE double
denotes a rational, and every operation the embedded code performs on these
numbers (comparison, `min`, `max`) is exact on the denoted rationals. -/
inductive PyVal where
  | pint (n : Int)
  | pfloat (q : Rat)
  | pstr (s : String)
  | pbool (b : Bool)
  | plist (xs : List PyVal)

/-- Dictionary lookup `d.get(k)`: settings dictionaries are modelled as
association lists with distinct keys, first binding wins. -/
def dictGet (d : List (String × PyVal)) (k : String) : Option PyVal :=
  match d with
  | [] => none
  | (k1, v) :: t => if k1 = k then some v else dictGet t k

/-- Truncation to 64 unsigned bits, the `Py_uhash_t` arithmetic CPython's
hash combiners are written in. -/
def u64 (n : Nat) : Nat := n % 18446744073709551616

/-- Reinterpret a signed hash as a `Py_uhash_t`. -/
def toU64 (i : Int) : Nat := (i % (18446744073709551616 : Int)).toNat

/-- Reinterpret a `Py_uhash_t` as a signed `Py_hash_t`. -/
def fromU64 (n : Nat) : Int :=
  if n < 9223372036854775808 then (n : Int) else (n : Int) - 18446744073709551616

/-- CPython hash of an int: reduce the absolute value modulo the Mersenne
prime 2^61 - 1, reapply the sign, and map the reserved value -1 to -2.
In particular `pyHashInt (-1) = pyHashInt (-2) = -2`. -/
def pyHashInt (n : Int) : Int :=
  let r : Int := if 0 ≤ n then n % 2305843009213693951 else -((-n) % 2305843009213693951)
  if r = -1 then -2 else r

/-- Modular exponentiation, used by the rational hash below. -/
def powMod (b e m : Nat) : Nat :=
  if h : e = 0 then 1 % m
  else
    let r := powMod (b * b % m) (e / 2) m
    if e % 2 = 1 then r * b % m else r
termination_by e
decreasing_by exact Nat.div_lt_self (Nat.pos_of_ne_zero h) (by decide)

/-- CPython numeric hash of a rational value.  A float hashes as the exact
rational it denotes, through the documented fraction-hash algorithm (inverse
of the denominator modulo 2^61 - 1). -/
def pyHashRat (q : Rat) : Int :=
  let p : Nat := 2305843009213693951
  let h : Nat :=
    if q.den % p = 0 then 314159
    else q.num.natAbs % p * powMod (q.den % p) (p - 2) p % p
  let r : Int := if q.num < 0 then -(h : Int) else (h : Int)
  if r = -1 then -2 else r

/-- Hash of a hashable Python value; `none` for unhashable values (lists),
where CPython raises `TypeError`.  CPython randomises the string hash per
process (PYTHONHASHSEED), so the string hash is a parameter `strHash`; the
hash-collision results below hold for every choice of `strHash`. -/
def pyHashVal (strHash : String → Int) : PyVal → Option Int
  | .pint n => some (pyHashInt n)
  | .pfloat q => some (pyHashRat q)
  | .pstr s => some (strHash s)
  | .pbool b => some (if b then 1 else 0)
  | .plist _ => none

/-- Left rotation by 31 of a 64-bit value, from CPython's tuple hash. -/
def rotl31 (x : Nat) : Nat := u64 (x * 2147483648) ||| x / 8589934592

/-- One lane-accumulation step of CPython's xxHash-based tuple combiner. -/
def tupleStep (acc lane : Nat) : Nat :=
  u64 (rotl31 (u64 (acc + u64 (lane * 14029467366897019727))) * 11400714785074694791)

/-- CPython tuple hash (CPython >= 3.8), specialised to the 2-tuples
`(key, value)` that `dict.items()` yields, as a function of the two element
hashes. -/
def pyHashTuple2 (h1 h2 : Int) : Int :=
  let acc := tupleStep (tupleStep 2870177450012600261 (toU64 h1)) (toU64 h2)
  let acc := u64 (acc + Nat.xor 2 (Nat.xor 2870177450012600261 3527539))
  if acc = 18446744073709551615 then 1546275796 else fromU64 acc

/-- Bit shuffle applied to each element hash by CPython's frozenset hash. -/
def shuffleBits (z : Nat) : Nat :=
  u64 (Nat.xor (Nat.xor z 89869747) (u64 (z * 65536)) * 3644798167)

/-- CPython frozenset hash as a function of the element hashes.  The XOR
accumulation makes it independent of iteration order. -/
def pyHashFrozensetOf (hs : List Int) : Int :=
  let x := hs.foldl (fun a h => Nat.xor a (shuffleBits (toU64 h))) 0
  let x := Nat.xor x (u64 ((hs.length + 1) * 1927868237))
  let x := u64 (x * 69069 + 907133923)
  if x = 18446744073709551615 then 590923713 else fromU64 x

/-- The hashes of the `(key, value)` item tuples of a settings dictionary;
`none` as soon as one value is unhashable. -/
def itemHashes (strHash : String → Int) : List (String × PyVal) → Option (List Int)
  | [] => some []
  | kv :: t =>
    match pyHashVal strHash kv.2 with
    | none => none
    | some hv =>
      match itemHashes strHash t with
      | none => none
      | some hs => some (pyHashTuple2 (strHash kv.1) hv :: hs)

/-- Models `hash(frozenset(settings.items()))` from `ModelFactory.get_model`
(model_factory.py line 66).  `none` models the `TypeError` CPython raises at
this expression when an item value is unhashable. -/
def hashFrozensetItems (strHash : String → Int) (settings : List (String × PyVal)) : Option Int :=
  (itemHashes strHash settings).map pyHashFrozensetOf

/-- A fixed representative of CPython's per-process randomised string hash,
used only to state closed (fully concrete) evaluation theorems.  Every
collision fact proved below is also proved for an arbitrary string hash. -/
def pyHashStr (s : String) : Int :=
  ((s.data.foldl (fun a c => (a * 31 + c.toNat) % 2305843009213693951) 5381 : Nat) : Int)

/-- Boolean test that `needle` is an initial segment of `hay`. -/
def listStartsWith : List Char → List Char → Bool
  | [], _ => true
  | _ :: _, [] => false
  | a :: as, b :: bs => a == b && listStartsWith as bs

/-- Boolean test that `needle` occurs contiguously in `hay`. -/
def listHasSub (needle : List Char) : List Char → Bool
  | [] => needle.isEmpty
  | h :: t => listStartsWith needle (h :: t) || listHasSub needle t

/-- Python substring containment `needle in hay` on strings. -/
def strContains (hay needle : String) : Bool := listHasSub needle.data hay.data

/-- Python `str.lower()` (ASCII range, which is all this code base feeds
it): characterwise lowering. -/
def pyLower (s : String) : String := ⟨s.data.map Char.toLower⟩

/-- A vendor entry of the registry (enums/model_vendors.py).  `apiErrorMsg`
models the `.format(error_msg=...)` instantiation of the `APIError`
template. -/
structure VendorSpec where
  apiKeyEnv : String
  vendorID : String
  displayName : String
  langchainModule : String
  langchainCls : String
  apiKeyNotFoundError : String
  rateLimitError : String
  authenticationError : String
  apiErrorMsg : String → String
  timeoutError : String
  modelIds : List String
  modelNameKey : String
  modelAPIKeyField : String
  temperatureKey : String
  maxTokensKey : String
  topPKey : String
  requestTimeoutKey : String

/-- The OpenAI entry (model_vendors.py lines 54-85). -/
def openAIVendor : VendorSpec where
  apiKeyEnv := "OPENAI_API_KEY"
  vendorID := "openai"
  displayName := "OpenAI"
  langchainModule := "langchain_openai"
  langchainCls := "ChatOpenAI"
  apiKeyNotFoundError := "OpenAI API key not found. Please set OPENAI_API_KEY environment variable."
  rateLimitError := "OpenAI rate limit exceeded. Please try again later."
  authenticationError := "OpenAI API key is invalid or expired."
  apiErrorMsg := fun m => "OpenAI API error: " ++ m
  timeoutError := "OpenAI API request timed out. Please try again."
  modelIds := ["gpt-4.1-mini", "gpt-4.1-nano", "gpt-4.1"]
  modelNameKey := "model_name"
  modelAPIKeyField := "openai_api_key"
  temperatureKey := "temperature"
  maxTokensKey := "max_tokens"
  topPKey := "top_p"
  requestTimeoutKey := "request_timeout"

/-- The Anthropic entry (model_vendors.py lines 87-117). -/
def anthropicVendor : VendorSpec where
  apiKeyEnv := "ANTHROPIC_API_KEY"
  vendorID := "anthropic"
  displayName := "Anthropic"
  langchainModule := "langchain_anthropic"
  langchainCls := "ChatAnthropic"
  apiKeyNotFoundError := "Anthropic API key not found. Please set OPENAI_API_KEY environment variable."
  rateLimitError := "Anthropic rate limit exceeded. Please try again later."
  authenticationError := "Anthropic API key is invalid or expired."
  apiErrorMsg := fun m => "Anthropic API error: " ++ m
  timeoutError := "Anthropic API request timed out. Please try again."
  modelIds := ["claude-3-opus-latest", "claude-3-7-sonnet-latest", "claude-3-5-haiku-latest"]
  modelNameKey := "model"
  modelAPIKeyField := "anthropic_api_key"
  temperatureKey := "temperature"
  maxTokensKey := "max_tokens"
  topPKey := "top_p"
  requestTimeoutKey := "default_request_timeout"

/-- The Google entry (model_vendors.py lines 119-146). -/
def googleVendor : VendorSpec where
  apiKeyEnv := "GEMINI_API_KEY"
  vendorID := "google"
  displayName := "Google"
  langchainModule := "langchain_google_genai"
  langchainCls := "ChatGoogleGenerativeAI"
  apiKeyNotFoundError := "Gemini API key not found. Please set OPENAI_API_KEY environment variable."
  rateLimitError := "Gemini rate limit exceeded. Please try again later."
  authenticationError := "Gemini API key is invalid or expired."
  apiErrorMsg := fun m => "Gemini API error: " ++ m
  timeoutError := "Gemini API request timed out. Please try again."
  modelIds := ["gemini-2.5-flash"]
  modelNameKey := "model"
  modelAPIKeyField := "google_api_key"
  temperatureKey := "temperature"
  maxTokensKey := "max_output_tokens"
  topPKey := "top_p"
  requestTimeoutKey := "timeout"

/-- The Ollama entry (model_vendors.py lines 148-174).  Its `APIKey` and
`ModelAPIKey` and `MaxTokensKey` entries are the empty string: this is the
local-inference vendor that declares no API-key field. -/
def ollamaVendor : VendorSpec where
  apiKeyEnv := ""
  vendorID := "ollama"
  displayName := "Ollama"
  langchainModule := "langchain_ollama"
  langchainCls := "ChatOllama"
  apiKeyNotFoundError := "Ollama API key not found. Please set OPENAI_API_KEY environment variable."
  rateLimitError := "Ollama rate limit exceeded. Please try again later."
  authenticationError := "Ollama API key is invalid or expired."
  apiErrorMsg := fun m => "Ollama API error: " ++ m
  timeoutError := "Ollama API request timed out. Please try again."
  modelIds := ["llama3.1"]
  modelNameKey := "model"
  modelAPIKeyField := ""
  temperatureKey := "temperature"
  maxTokensKey := ""
  topPKey := "top_p"
  requestTimeoutKey := "timeout"

/-- The `MODEL_VENDORS` list (model_vendors.py line 176). -/
def MODEL_VENDORS : List VendorSpec :=
  [openAIVendor, anthropicVendor, googleVendor, ollamaVendor]

/-- The `_vendor_lookup` dictionary built by `ModelFactory.__init__`
(model_factory.py lines 24-27), as a lookup by vendor id. -/
def vendorLookup (name : String) : Option VendorSpec :=
  MODEL_VENDORS.find? fun v => v.vendorID == name

/-- A raised Python exception, as its class name and message (`str(e)`). -/
structure PyExc where
  cls : String
  msg : String
deriving DecidableEq

/-- The vendor error translation `handle_vendor_exception`
(error_handlers.py lines 55-84): substring dispatch on the exception class
name into the fixed taxonomy. -/
def handleVendorException (e : PyExc) (v : VendorSpec) : PyExc :=
  if strContains e.cls "RateLimitError" then ⟨"RateLimitError", v.rateLimitError⟩
  else if strContains e.cls "AuthenticationError" then ⟨"APIKeyError", v.authenticationError⟩
  else if strContains e.cls "APIError" then ⟨"ModelInitializationError", v.apiErrorMsg e.msg⟩
  else if strContains e.cls "Timeout" then ⟨"ModelInitializationError", v.timeoutError⟩
  else ⟨"ModelInitializationError", v.displayName ++ " error: " ++ e.msg⟩

/-- A value stored in the keyword-argument dictionary passed to the
LangChain chat-model constructor. -/
inductive ConfigVal where
  | cs (s : String)
  | cq (q : Rat)
  | ci (n : Int)
deriving DecidableEq

/-- A constructed model handle.  `id` is a creation serial number: two
handles are the identical instance exactly when their values (including
`id`) agree. -/
structure Handle where
  id : Nat
  vendorId : String
  cls : String
  config : List (String × ConfigVal)
deriving DecidableEq

/-- Digits-to-number accumulator for the numeric string parsers. -/
def natOfDigits (l : List Char) : Option Nat :=
  l.foldl
    (fun acc c => acc.bind fun a => if c.isDigit then some (a * 10 + (c.toNat - 48)) else none)
    (some 0)

/-- Parser for an unsigned decimal float literal (digits, optional point,
digits), the form `float()` accepts from this code path. -/
def parseUnsignedFloat (l : List Char) : Option Rat :=
  let ip := l.takeWhile Char.isDigit
  let rest := l.dropWhile Char.isDigit
  match rest with
  | [] => if ip.isEmpty then none else (natOfDigits ip).map fun n => (n : Rat)
  | '.' :: fp =>
    if fp.all Char.isDigit && (!ip.isEmpty || !fp.isEmpty) then
      match natOfDigits ip, natOfDigits fp with
      | some n, some f => some ((n : Rat) + (f : Rat) / ((10 : Rat) ^ fp.length))
      | _, _ => none
    else none
  | _ => none

/-- Parser for an unsigned decimal integer literal. -/
def parseUnsignedInt (l : List Char) : Option Nat :=
  if l.isEmpty || !l.all Char.isDigit then none else natOfDigits l

/-- Models Python `float(s)` on a string (plain decimal literals; the
settings produced by the client only carry those). -/
def pyFloatOfString (s : String) : Option Rat :=
  match s.data with
  | '-' :: t => (parseUnsignedFloat t).map Neg.neg
  | '+' :: t => parseUnsignedFloat t
  | l => parseUnsignedFloat l

/-- Models Python `int(s)` on a string. -/
def pyIntOfString (s : String) : Option Int :=
  match s.data with
  | '-' :: t => (parseUnsignedInt t).map fun n => -(n : Int)
  | '+' :: t => (parseUnsignedInt t).map fun n => (n : Int)
  | l => (parseUnsignedInt l).map fun n => (n : Int)

/-- Models Python `float(x)` as used on settings values
(model_factory.py lines 109 and 115). -/
def pyFloat : PyVal → Except PyExc Rat
  | .pint n => .ok (n : Rat)
  | .pfloat q => .ok q
  | .pbool b => .ok (if b then 1 else 0)
  | .pstr s =>
    match pyFloatOfString s with
    | some q => .ok q
    | none => .error ⟨"ValueError", "could not convert string to float: " ++ s⟩
  | .plist _ => .error ⟨"TypeError", "float() argument must be a string or a real number"⟩

/-- Truncation toward zero, the behaviour of Python `int()` on a float. -/
def ratTrunc (q : Rat) : Int := if q < 0 then ⌈q⌉ else ⌊q⌋

/-- Models Python `int(x)` as used on settings values
(model_factory.py line 112). -/
def pyInt : PyVal → Except PyExc Int
  | .pint n => .ok n
  | .pfloat q => .ok (ratTrunc q)
  | .pbool b => .ok (if b then 1 else 0)
  | .pstr s =>
    match pyIntOfString s with
    | some n => .ok n
    | none => .error ⟨"ValueError", "invalid literal for int() with base 10: " ++ s⟩
  | .plist _ => .error ⟨"TypeError", "int() argument must be a string or a number"⟩

/-- The clamp `max(0, min(1, x))` applied to temperature and top-p
(model_factory.py lines 110 and 116). -/
def clamp01 (q : Rat) : Rat := max 0 (min 1 q)

/-- The clamp `max(1, min(32000, x))` applied to max-tokens
(model_factory.py line 113). -/
def clampTokens (n : Int) : Int := max 1 (min 32000 n)

/-- The settings extraction and clamping block of
`ModelFactory._create_model_class` (model_factory.py lines 108-116):
temperature defaults to 0.7 and is clamped to [0,1], max-tokens reads the
`contextLength` setting, defaults to 4000 and is clamped to [1,32000],
top-p defaults to 1.0 and is clamped to [0,1]. -/
def extractSettings (settings : List (String × PyVal)) : Except PyExc (Rat × Int × Rat) :=
  match pyFloat ((dictGet settings "temperature").getD (.pfloat (7 / 10))) with
  | .error e => .error e
  | .ok t0 =>
    match pyInt ((dictGet settings "contextLength").getD (.pint 4000)) with
    | .error e => .error e
    | .ok n0 =>
      match pyFloat ((dictGet settings "topP").getD (.pfloat 1)) with
      | .error e => .error e
      | .ok p0 => .ok (clamp01 t0, clampTokens n0, clamp01 p0)

/-- `ModelFactory._create_model_class` (model_factory.py lines 87-131):
fetch the API key from the environment variable named by the vendor's
`APIKey` entry and fail when it is absent or empty, extract and clamp the
settings, and build the constructor keyword dictionary; the API-key and
max-tokens entries are added only when the vendor declares a field name for
them.  The module import is modelled as succeeding (the packages are
installed in the deployment).  `freshId` is the serial number of the handle
being constructed. -/
def createModelClass (env : String → Option String) (v : VendorSpec) (modelId : String)
    (settings : List (String × PyVal)) (freshId : Nat) : Except PyExc Handle :=
  let apiKey := env v.apiKeyEnv
  match apiKey with
  | none => .error ⟨"APIKeyError", v.apiKeyNotFoundError⟩
  | some k =>
    if k = "" then .error ⟨"APIKeyError", v.apiKeyNotFoundError⟩
    else
      match extractSettings settings with
      | .error e => .error e
      | .ok (t, mt, tp) =>
        .ok
          { id := freshId
            vendorId := v.vendorID
            cls := v.langchainCls
            config :=
              [(v.modelNameKey, .cs modelId), (v.temperatureKey, .cq t),
                (v.topPKey, .cq tp), (v.requestTimeoutKey, .ci 60)] ++
              (if v.modelAPIKeyField ≠ "" then [(v.modelAPIKeyField, .cs k)] else []) ++
              (if v.maxTokensKey ≠ "" then [(v.maxTokensKey, .ci mt)] else []) }

/-- The mutable state of the singleton `ModelFactory`: the handle cache
(`_model_cache`) and the next creation serial number. -/
structure FactoryState where
  cache : List (String × Handle)
  nextId : Nat
deriving DecidableEq

/-- Python dict lookup in the handle cache. -/
def cacheLookup (c : List (String × Handle)) (k : String) : Option Handle :=
  match c with
  | [] => none
  | (k1, h) :: t => if k1 = k then some h else cacheLookup t k

/-- `ModelFactory.get_model` (model_factory.py lines 32-85): normalise the
vendor name, validate vendor and model membership, compute the cache key
`vendor:model_id:hash(frozenset(settings.items()))`, return a cached handle
on a hit, otherwise construct, cache and return a new handle, translating
construction failures through `handle_vendor_exception`.  The frozenset
hash is computed after membership validation and before the try block, so
its `TypeError` (unhashable settings value) is returned untranslated. -/
def getModel (env : String → Option String) (strHash : String → Int) (st : FactoryState)
    (vendor modelId : String) (settings : List (String × PyVal)) :
    Except PyExc Handle × FactoryState :=
  match vendorLookup (pyLower vendor) with
  | none =>
    (.error ⟨"ModelInitializationError", "Unsupported vendor: " ++ pyLower vendor⟩, st)
  | some v =>
    if v.modelIds.contains modelId then
      match hashFrozensetItems strHash settings with
      | none => (.error ⟨"TypeError", "unhashable type: \x27list\x27"⟩, st)
      | some hv =>
        match cacheLookup st.cache (pyLower vendor ++ ":" ++ modelId ++ ":" ++ toString hv) with
        | some m => (.ok m, st)
        | none =>
          match createModelClass env v modelId settings st.nextId with
          | .ok m =>
            (.ok m, ⟨st.cache ++ [(pyLower vendor ++ ":" ++ modelId ++ ":" ++ toString hv, m)],
              st.nextId + 1⟩)
          | .error e => (.error (handleVendorException e v), st)
    else (.error ⟨"ModelInitializationError", "Unsupported model: " ++ modelId⟩, st)

/-- The thread key used by `/chat` for the chain invocation
(app.py line 393): `f"{user_token}-{conversation_id}"`. -/
def chatThreadId (userToken conversationId : String) : String :=
  userToken ++ "-" ++ conversationId

/-- The thread key computed by the decomposition server's `handle_task`
(server.py line 152): `f"{user_token}-{conversation_id}"`. -/
def agentThreadId (userToken conversationId : String) : String :=
  userToken ++ "-" ++ conversationId

/-- The thread key used by `/regenerate` for the chain invocation
(app.py lines 508-512): the bare conversation id, with no user-token
prefix. -/
def regenThreadId (conversationId : String) : String := conversationId

/-- A component: a Python dict from labels to verbatim excerpts, as an
insertion-ordered association list (single-key in the decomposition
contract). -/
def Component : Type := List (String × String)

/-- A data part of an a2a artifact: the `part.root.data` dictionary with
its `components` (defaulting to `[]`) and `outputType` entries. -/
structure PyPart where
  components : List (List (String × String))
  outputType : Option String
deriving DecidableEq

/-- An a2a artifact: a list of parts. -/
structure PyArtifact where
  parts : List PyPart
deriving DecidableEq

/-- A validated a2a task response, as consumed by
`process_decomposed_response` (`task.artifacts` may be `None`). -/
structure PyTask where
  artifacts : Option (List PyArtifact)
deriving DecidableEq

/-- The label of a component: its first key (total version, used to state
theorems; the executable paths below model `list(component.keys())[0]`
faithfully, including its `IndexError`). -/
def componentLabel (c : List (String × String)) : String := (c.headD ("", "")).1

/-- Models the comprehension `[list(component.keys())[0] for component in
components]` (app.py lines 213-215 and server.py line 201): the first key of
each component dict, raising `IndexError` on an empty dict. -/
def extractLabels : List (List (String × String)) → Except PyExc (List String)
  | [] => .ok []
  | c :: t =>
    match c.head? with
    | none => .error ⟨"IndexError", "list index out of range"⟩
    | some kv =>
      match extractLabels t with
      | .error e => .error e
      | .ok ls => .ok (kv.1 :: ls)

/-- The `response_data` dictionary accumulated by
`process_decomposed_response`: each field `none` while its key is absent. -/
structure DecompData where
  components : Option (List (List (String × String)))
  outputType : Option String
  outputStructure : Option (List String)
deriving DecidableEq

/-- One loop iteration of `process_decomposed_response` (app.py lines
206-215): parts with an empty `components` list leave the accumulator
unchanged; otherwise all three keys are (re)written, with `outputStructure`
recomputed from the part's components. -/
def processPart (acc : DecompData) (p : PyPart) : Except PyExc DecompData :=
  if p.components.isEmpty then .ok acc
  else
    match extractLabels p.components with
    | .error e => .error e
    | .ok ls => .ok ⟨some p.components, some (p.outputType.getD ""), some ls⟩

/-- `process_decomposed_response` (app.py lines 202-216), after the a2a
task validation: fold over all parts of all artifacts. -/
def processDecomposedResponse (t : PyTask) : Except PyExc DecompData :=
  match t.artifacts with
  | none => .ok ⟨none, none, none⟩
  | some arts => (arts.flatMap fun a => a.parts).foldlM processPart ⟨none, none, none⟩

/-- The `response_data` dictionary assembled by the decomposition server's
`handle_task` on success (server.py lines 196-205). -/
structure ServerRespData where
  components : List (List (String × String))
  outputType : String
  outputStructure : List String
deriving DecidableEq

/-- The output-type inference of `handle_task` (server.py lines 189-194):
keyword matching over the lowered original text. -/
def serverOutputType (s : String) : String :=
  if strContains (pyLower s) "email" then "email"
  else if strContains (pyLower s) "report" then "report"
  else "document"

/-- The response assembly of `handle_task` (server.py lines 186-205):
`outputStructure` is the comprehension over `components` when that list is
non-empty, and `[]` otherwise. -/
def assembleResponseData (responseText : String)
    (components : List (List (String × String))) : Except PyExc ServerRespData :=
  if components.isEmpty then .ok ⟨components, serverOutputType responseText, []⟩
  else
    match extractLabels components with
    | .error e => .error e
    | .ok ls => .ok ⟨components, serverOutputType responseText, ls⟩

/-- A model handle as seen by the chat flow: either the factory handle
unchanged, or its structured-output variant produced by
`llm.with_structured_output(schema, method=...)` (app.py lines 346-348). -/
inductive LLMRef where
  | plain (h : Handle)
  | structured (h : Handle) (schema : String) (method : Option String)
deriving DecidableEq

/-- The literal schema instruction block appended to the system prompt
(app.py lines 339-344), with the schema's braces doubled by the two
`.replace` calls. -/
def structuredRequestBlock (rf : String) : String :=
  "\n                    Required JSON output:\n                    ```json\n                    " ++
    ((rf.replace "\x7b" "\x7b\x7b").replace "\x7d" "\x7d\x7d") ++
    "\n                    ```\n                    "

/-- The structured-output augmentation step of `/chat` (app.py lines
332-353).  `jsonValid rf` models whether `json.loads(rf)` succeeds; on a
parse failure (`json.JSONDecodeError`) the augmentation is skipped and the
prompt and handle are left unchanged.  The schema instruction is appended
only when the current system prompt does not already mention "json"
(case-insensitively); the handle swap does not depend on that check.  The
`method` flag is `json_mode` exactly for the openai vendor. -/
def augmentStep (jsonValid : String → Bool) (vendor : String) (systemPrompt : String)
    (responseFormat : Option String) (llm : Handle) : String × LLMRef :=
  match responseFormat with
  | none => (systemPrompt, .plain llm)
  | some rf =>
    if rf ≠ "" && rf ≠ "\x7b\x7d" then
      if jsonValid rf then
        let sp :=
          if strContains (pyLower systemPrompt) "json" then systemPrompt
          else systemPrompt ++ "\n\n" ++ structuredRequestBlock rf
        (sp, .structured llm rf (if pyLower vendor = "openai" then some "json_mode" else none))
      else (systemPrompt, .plain llm)
    else (systemPrompt, .plain llm)

/-- A `/chat` request body.  `systemPromptSetting` and `responseFormat`
carry the results of the `settings.get("systemPrompt")` and
`settings.get("responseFormat")` lookups, string-typed as the client sends
them; `files` are omitted (the file-context step is an external
collaborator per the spec and never fails the request). -/
structure ChatRequest where
  message : String
  modelId : String
  userToken : String
  vendor : String
  settings : List (String × PyVal)
  systemPromptSetting : Option String
  responseFormat : Option String
  decompose : Bool
  conversationId : Option String

/-- The environment a `/chat` request runs against: the process
environment, the interpreter's string hash, the `json.loads` validity
oracle, the uuids generated for absent ids, the conversation-chain build
outcome, the model invocation, and the decomposition round trip
(`acall_mod_agent` followed by a2a validation). -/
structure ChatEnv where
  env : String → Option String
  strHash : String → Int
  jsonValid : String → Bool
  freshConvId : String
  freshConvId2 : String
  createChainOk : Except String Unit
  invoke : LLMRef → String → String → String → Except PyExc String
  decomposeCall : String → String → String → Except PyExc PyTask

/-- The JSON payload `/chat` returns on success (app.py lines 404-438):
the decomposition keys are absent (`none`) unless a successful
decomposition merged them in. -/
structure ChatPayload where
  text : String
  modelId : String
  vendor : String
  conversationId : String
  components : Option (List (List (String × String)))
  outputType : Option String
  outputStructure : Option (List String)
deriving DecidableEq

/-- A response body: a success payload or an error detail string. -/
inductive ChatBody where
  | payload (p : ChatPayload)
  | errorDetail (s : String)
deriving DecidableEq

/-- An HTTP response: status code and body. -/
structure ChatResult where
  status : Nat
  body : ChatBody
deriving DecidableEq

/-- The body of the `/chat` endpoint inside its outer `try` (app.py lines
295-446).  `HTTPException`s raised inside the `try` are modelled as errors
with class `"HTTPException"` and message `str(e)`, i.e. `"<code>: <detail>"`;
the outer handlers decide the actual response.  The decomposition call and
the subsequent `process_decomposed_response` run in their own `try` whose
`except` continues without components (app.py lines 414-432). -/
def chatInner (E : ChatEnv) (st : FactoryState) (req : ChatRequest) :
    Except PyExc ChatResult :=
  if req.message = "" then .error ⟨"HTTPException", "400: Empty message"⟩
  else if req.modelId = "" then .error ⟨"HTTPException", "400: No model selected"⟩
  else if req.vendor = "" then .error ⟨"HTTPException", "400: No vendor specified"⟩
  else
    let candidateId := req.conversationId.getD E.freshConvId
    match (getModel E.env E.strHash st req.vendor req.modelId req.settings).1 with
    | .error e => .error e
    | .ok llm =>
      let systemPrompt0 := req.systemPromptSetting.getD "You are a helpful AI assistant."
      let sl := augmentStep E.jsonValid req.vendor systemPrompt0 req.responseFormat llm
      match E.createChainOk with
      | .error m =>
        .error ⟨"HTTPException",
          "400: An exception occurred while creating conversation chain: Failed to create conversation: " ++ m⟩
      | .ok _ =>
        let conversationId := if candidateId = "" then E.freshConvId2 else candidateId
        let threadId := chatThreadId req.userToken conversationId
        match E.invoke sl.2 sl.1 threadId req.message with
        | .error e => .error ⟨"HTTPException", "500: Error from language model: " ++ e.msg⟩
        | .ok content =>
          let base : ChatPayload := ⟨content, req.modelId, req.vendor, conversationId, none, none, none⟩
          let payload :=
            if req.decompose then
              match E.decomposeCall content conversationId req.userToken with
              | .error _ => base
              | .ok task =>
                match processDecomposedResponse task with
                | .error _ => base
                | .ok d => ⟨content, req.modelId, req.vendor, conversationId,
                    d.components, d.outputType, d.outputStructure⟩
            else base
          .ok ⟨200, .payload payload⟩

/-- The `/chat` endpoint (app.py lines 291-461) with its outer exception
handlers: `ModelInitializationError` becomes a 400 with `str(e)`; every
other exception — including the endpoint's own `HTTPException`s, which the
blanket `except Exception` catches before FastAPI sees them — becomes a 500
with the generic detail. -/
def chatEndpoint (E : ChatEnv) (st : FactoryState) (req : ChatRequest) : ChatResult :=
  match chatInner E st req with
  | .ok r => r
  | .error e =>
    if e.cls = "ModelInitializationError" then ⟨400, .errorDetail e.msg⟩
    else ⟨500, .errorDetail ("An unexpected error occurred. Please try again.\n" ++ e.msg)⟩

/-- A feedback response body. -/
inductive FeedbackBody where
  | success
  | errorDetail (s : String)
deriving DecidableEq

/-- A feedback endpoint outcome: HTTP status, body, and the resulting
feedback table. -/
structure FeedbackResult where
  status : Nat
  body : FeedbackBody
  rows : List (List Int × String)
deriving DecidableEq

/-- The `/feedback` endpoint (app.py lines 619-663).  The validation
`HTTPException(400, "Submitted invalid ratings")` is raised inside the
endpoint's own `try`, whose blanket `except Exception` catches it and
re-raises `HTTPException(500, detail=f"Encountered error: {str(e)}")`, with
`str` of the caught exception rendering as `"400: Submitted invalid
ratings"`.  On a database failure the inner handler calls `HTTPException`
with the misspelled keyword `detaiil`, so a `TypeError` is raised and
wrapped the same way.  `insert` is the database-insert outcome; `ratings`
is `none` when absent or not a list. -/
def submitFeedback (insert : Except PyExc Unit) (rows : List (List Int × String))
    (ratings : Option (List Int)) (comments : String) : FeedbackResult :=
  let invalid : FeedbackResult :=
    ⟨500, .errorDetail "Encountered error: 400: Submitted invalid ratings", rows⟩
  match ratings with
  | none => invalid
  | some rs =>
    if rs.length = 10 then
      match insert with
      | .ok _ => ⟨200, .success, rows ++ [(rs, comments)]⟩
      | .error _ =>
        ⟨500, .errorDetail
          "Encountered error: HTTPException.__init__() got an unexpected keyword argument \x27detaiil\x27",
          rows⟩
    else invalid

/-- Decidable equality for `Except` outcomes, used to evaluate the embedded
endpoints on concrete inputs. -/
instance {e a : Type} [DecidableEq e] [DecidableEq a] : DecidableEq (Except e a) :=
  fun x y =>
    match x, y with
    | .error e1, .error e2 =>
      if h : e1 = e2 then .isTrue (by rw [h]) else .isFalse (by simp [h])
    | .ok a1, .ok a2 =>
      if h : a1 = a2 then .isTrue (by rw [h]) else .isFalse (by simp [h])
    | .error _, .ok _ => .isFalse (by simp)
    | .ok _, .error _ => .isFalse (by simp)

/-- The invariant carried by the `process_decomposed_response` fold: either
no decomposition key has been written, or `components` holds a non-empty
list of non-empty dicts and `outputStructure` is exactly its ordered label
list. -/
def decompInvariant (d : DecompData) : Prop :=
  (d.components = none ∧ d.outputStructure = none) ∨
  (∃ cs, d.components = some cs ∧ cs ≠ [] ∧ (∀ c ∈ cs, c ≠ []) ∧
    d.outputStructure = some (cs.map componentLabel))

/-- Splitting a character list at a separator character is unique when
neither left part contains the separator. -/
theorem sepSplitUnique (l1 : List Char) : ∀ (l2 r1 r2 : List Char),
    '-' ∉ l1 → '-' ∉ l2 → l1 ++ '-' :: r1 = l2 ++ '-' :: r2 → l1 = l2 ∧ r1 = r2 := by
  induction l1 with
  | nil =>
    intro l2 r1 r2 _ h2 heq
    cases l2 with
    | nil => simpa using heq
    | cons b t =>
      simp only [List.nil_append, List.cons_append, List.cons.injEq] at heq
      exact absurd (heq.1 ▸ List.mem_cons_self b t) h2
  | cons a t ih =>
    intro l2 r1 r2 h1 h2 heq
    cases l2 with
    | nil =>
      simp only [List.cons_append, List.nil_append, List.cons.injEq] at heq
      exact absurd (heq.1 ▸ List.mem_cons_self a t) h1
    | cons b t2 =>
      simp only [List.cons_append, List.cons.injEq] at heq
      have ht := ih t2 r1 r2 (fun hm => h1 (List.mem_cons_of_mem _ hm))
        (fun hm => h2 (List.mem_cons_of_mem _ hm)) heq.2
      exact ⟨by rw [heq.1, ht.1], ht.2⟩

/-- C2: thread-key derivation for chat and decompose calls is the pure
function `user_token ++ "-" ++ conversation_id` (app.py line 393 and
server.py line 152 compute the same key); the same pair always produces the
same key, and distinct pairs produce distinct keys under the documented
assumption that no user token contains the separator. -/
theorem C2_thread_key_derivation :
    (∀ ut cid, chatThreadId ut cid = ut ++ "-" ++ cid ∧
      agentThreadId ut cid = chatThreadId ut cid) ∧
    (∀ ut1 cid1 ut2 cid2 : String, '-' ∉ ut1.data → '-' ∉ ut2.data →
      chatThreadId ut1 cid1 = chatThreadId ut2 cid2 → ut1 = ut2 ∧ cid1 = cid2) := by
  refine ⟨fun ut cid => ⟨rfl, rfl⟩, ?_⟩
  intro ut1 cid1 ut2 cid2 h1 h2 heq
  have hd := congrArg String.data heq
  have hsep : ("-" : String).data = ['-'] := rfl
  simp only [chatThreadId, String.data_append, hsep, List.append_assoc,
    List.singleton_append] at hd
  have hs := sepSplitUnique ut1.data ut2.data cid1.data cid2.data h1 h2 hd
  exact ⟨String.ext hs.1, String.ext hs.2⟩

/-- Witness for C2 at a concrete pair. -/
theorem C2_thread_key_derivation_witness :
    ("alice" : String) = "alice" ∧ ("c1" : String) = "c1" :=
  C2_thread_key_derivation.2 "alice" "c1" "alice" "c1" (by decide) (by decide) rfl

/-- C9: `/regenerate` invokes the chain under the bare conversation id
(app.py lines 508-512) while `/chat` invokes under
`user_token ++ "-" ++ conversation_id` (app.py line 393); for a non-empty
user token the two checkpoint partition keys always differ. -/
theorem C9_regenerate_thread_partition :
    (∀ cid, regenThreadId cid = cid) ∧
    (∀ ut cid : String, ut ≠ "" → chatThreadId ut cid ≠ regenThreadId cid) := by
  refine ⟨fun cid => rfl, ?_⟩
  intro ut cid _ h
  have hl := congrArg String.length h
  have hsep : ("-" : String).length = 1 := rfl
  simp only [chatThreadId, regenThreadId, String.length_append, hsep] at hl
  omega

/-- Witness for C9 at a concrete pair. -/
theorem C9_regenerate_thread_partition_witness :
    chatThreadId "alice" "c1" ≠ regenThreadId "c1" :=
  C9_regenerate_thread_partition.2 "alice" "c1" (by decide)

/-- The temperature/top-p clamp always lands in the unit interval. -/
theorem clamp01_nonneg (q : Rat) : 0 ≤ clamp01 q := le_max_left 0 (min 1 q)

/-- The temperature/top-p clamp never exceeds one. -/
theorem clamp01_le_one (q : Rat) : clamp01 q ≤ 1 := max_le (by norm_num) (min_le_left 1 q)

/-- Values already in [0,1] are left unchanged by the clamp. -/
theorem clamp01_eq_self {q : Rat} (h0 : 0 ≤ q) (h1 : q ≤ 1) : clamp01 q = q := by
  unfold clamp01
  rw [min_eq_right h1, max_eq_right h0]

/-- The clamp into [0,1] is idempotent. -/
theorem clamp01_idem (q : Rat) : clamp01 (clamp01 q) = clamp01 q :=
  clamp01_eq_self (clamp01_nonneg q) (clamp01_le_one q)

/-- The max-tokens clamp is at least one. -/
theorem clampTokens_ge_one (n : Int) : 1 ≤ clampTokens n := le_max_left 1 (min 32000 n)

/-- The max-tokens clamp never exceeds 32000. -/
theorem clampTokens_le (n : Int) : clampTokens n ≤ 32000 :=
  max_le (by norm_num) (min_le_left 32000 n)

/-- Values already in [1,32000] are left unchanged by the max-tokens clamp. -/
theorem clampTokens_eq_self {n : Int} (h1 : 1 ≤ n) (h2 : n ≤ 32000) : clampTokens n = n := by
  unfold clampTokens
  rw [min_eq_right h2, max_eq_right h1]

/-- The max-tokens clamp is idempotent. -/
theorem clampTokens_idem (n : Int) : clampTokens (clampTokens n) = clampTokens n :=
  clampTokens_eq_self (clampTokens_ge_one n) (clampTokens_le n)

/-- Characterisation of a successful settings extraction: the three lookups
convert, and the results are the clamped values. -/
theorem extractSettings_char (settings : List (String × PyVal)) (t : Rat) (mt : Int) (tp : Rat)
    (h : extractSettings settings = .ok (t, mt, tp)) :
    ∃ t0 n0 p0, pyFloat ((dictGet settings "temperature").getD (.pfloat (7 / 10))) = .ok t0 ∧
      pyInt ((dictGet settings "contextLength").getD (.pint 4000)) = .ok n0 ∧
      pyFloat ((dictGet settings "topP").getD (.pfloat 1)) = .ok p0 ∧
      t = clamp01 t0 ∧ mt = clampTokens n0 ∧ tp = clamp01 p0 := by
  unfold extractSettings at h
  cases hE1 : pyFloat ((dictGet settings "temperature").getD (.pfloat (7 / 10))) with
  | error e => rw [hE1] at h; exact absurd h (by simp)
  | ok t0 =>
    rw [hE1] at h
    cases hE2 : pyInt ((dictGet settings "contextLength").getD (.pint 4000)) with
    | error e => rw [hE2] at h; exact absurd h (by simp)
    | ok n0 =>
      rw [hE2] at h
      cases hE3 : pyFloat ((dictGet settings "topP").getD (.pfloat 1)) with
      | error e => rw [hE3] at h; exact absurd h (by simp)
      | ok p0 =>
        rw [hE3] at h
        simp only [Except.ok.injEq, Prod.mk.injEq] at h
        exact ⟨t0, n0, p0, rfl, rfl, rfl, h.1.symm, h.2.1.symm, h.2.2.symm⟩

/-- C4: settings clamping in handle construction is total and idempotent:
temperature and top-p are clamped into [0,1], the `contextLength` setting is
clamped into [1,32000], in-range values are unchanged, absent values default
to temperature 0.7, top-p 1.0, max-tokens 4000, a 60-second request timeout
is always placed in the constructor config, and numeric out-of-range values
are clamped rather than rejected (model_factory.py lines 108-131). -/
theorem C4_settings_clamping :
    (∀ settings t mt tp, extractSettings settings = Except.ok (t, mt, tp) →
      (0 ≤ t ∧ t ≤ 1 ∧ 0 ≤ tp ∧ tp ≤ 1 ∧ 1 ≤ mt ∧ mt ≤ 32000) ∧
      (dictGet settings "temperature" = none → t = 7 / 10) ∧
      (dictGet settings "contextLength" = none → mt = 4000) ∧
      (dictGet settings "topP" = none → tp = 1) ∧
      (∀ q : Rat, dictGet settings "temperature" = some (.pfloat q) → 0 ≤ q → q ≤ 1 → t = q) ∧
      (∀ n : Int, dictGet settings "contextLength" = some (.pint n) → 1 ≤ n → n ≤ 32000 → mt = n) ∧
      (∀ q : Rat, dictGet settings "topP" = some (.pfloat q) → 0 ≤ q → q ≤ 1 → tp = q) ∧
      extractSettings
        [("temperature", .pfloat t), ("contextLength", .pint mt), ("topP", .pfloat tp)] =
        .ok (t, mt, tp)) ∧
    (∀ settings (t0 : Rat) (n0 : Int) (p0 : Rat),
      dictGet settings "temperature" = some (.pfloat t0) →
      dictGet settings "contextLength" = some (.pint n0) →
      dictGet settings "topP" = some (.pfloat p0) →
      extractSettings settings = .ok (clamp01 t0, clampTokens n0, clamp01 p0)) ∧
    (∀ env v modelId settings freshId h,
      createModelClass env v modelId settings freshId = Except.ok h →
      (v.requestTimeoutKey, ConfigVal.ci 60) ∈ h.config) := by
  refine ⟨?_, ?_, ?_⟩
  · intro settings t mt tp h
    obtain ⟨t0, n0, p0, hE1, hE2, hE3, ht, hmt, htp⟩ := extractSettings_char settings t mt tp h
    subst ht hmt htp
    refine ⟨⟨clamp01_nonneg _, clamp01_le_one _, clamp01_nonneg _, clamp01_le_one _,
      clampTokens_ge_one _, clampTokens_le _⟩, ?_, ?_, ?_, ?_, ?_, ?_, ?_⟩
    · intro hn
      rw [hn] at hE1
      simp only [Option.getD_none, pyFloat, Except.ok.injEq] at hE1
      rw [← hE1]
      exact clamp01_eq_self (by norm_num) (by norm_num)
    · intro hn
      rw [hn] at hE2
      simp only [Option.getD_none, pyInt, Except.ok.injEq] at hE2
      rw [← hE2]
      exact clampTokens_eq_self (by norm_num) (by norm_num)
    · intro hn
      rw [hn] at hE3
      simp only [Option.getD_none, pyFloat, Except.ok.injEq] at hE3
      rw [← hE3]
      exact clamp01_eq_self (by norm_num) (by norm_num)
    · intro q hq h0 h1
      rw [hq] at hE1
      simp only [Option.getD_some, pyFloat, Except.ok.injEq] at hE1
      rw [← hE1]
      exact clamp01_eq_self h0 h1
    · intro n hn h1 h2
      rw [hn] at hE2
      simp only [Option.getD_some, pyInt, Except.ok.injEq] at hE2
      rw [← hE2]
      exact clampTokens_eq_self h1 h2
    · intro q hq h0 h1
      rw [hq] at hE3
      simp only [Option.getD_some, pyFloat, Except.ok.injEq] at hE3
      rw [← hE3]
      exact clamp01_eq_self h0 h1
    · rw [show extractSettings
          [("temperature", PyVal.pfloat (clamp01 t0)), ("contextLength", PyVal.pint (clampTokens n0)),
            ("topP", PyVal.pfloat (clamp01 p0))] =
          Except.ok (clamp01 (clamp01 t0), clampTokens (clampTokens n0), clamp01 (clamp01 p0))
          from rfl,
        clamp01_idem, clampTokens_idem, clamp01_idem]
  · intro settings t0 n0 p0 h1 h2 h3
    unfold extractSettings
    rw [h1, h2, h3]
    simp only [Option.getD_some, pyFloat, pyInt]
  · intro env v modelId settings freshId h hok
    unfold createModelClass at hok
    cases hE : env v.apiKeyEnv with
    | none => rw [hE] at hok; exact absurd hok (by simp)
    | some k =>
      rw [hE] at hok
      dsimp only at hok
      by_cases hk : k = ""
      · rw [if_pos hk] at hok
        exact absurd hok (by simp)
      · rw [if_neg hk] at hok
        cases hS : extractSettings settings with
        | error e => rw [hS] at hok; exact absurd hok (by simp)
        | ok tri =>
          rw [hS] at hok
          obtain ⟨t, mt, tp⟩ := tri
          simp only [Except.ok.injEq] at hok
          rw [← hok]
          simp [List.mem_append]

/-- Witness for C4: an out-of-range temperature 2.0 is clamped to 1, an
out-of-range context length 50000 is clamped to 32000, an in-range top-p
0.5 is preserved. -/
theorem C4_settings_clamping_witness :
    extractSettings
      [("temperature", PyVal.pfloat 2), ("contextLength", PyVal.pint 50000),
        ("topP", PyVal.pfloat (1 / 2))] = .ok (clamp01 2, clampTokens 50000, clamp01 (1 / 2)) :=
  C4_settings_clamping.2.1 _ 2 50000 (1 / 2) rfl rfl rfl

/-- C10: `get_model` is not total in its settings argument: with a valid
vendor and model, an unhashable settings value (here a list) makes the
cache-key computation `hash(frozenset(settings.items()))` fail with a raw
`TypeError` that is returned untranslated (its class is none of the
taxonomy classes), because it runs after membership validation and before
the try block; membership validation itself still runs first, as the
unsupported-model probe shows. -/
theorem C10_unhashable_settings_typeerror :
    getModel (fun _ => some "sk-test") pyHashStr ⟨[], 0⟩ "openai" "gpt-4.1-mini"
        [("callbacks", PyVal.plist [])] =
      (.error ⟨"TypeError", "unhashable type: \x27list\x27"⟩, ⟨[], 0⟩) ∧
    getModel (fun _ => some "sk-test") pyHashStr ⟨[], 0⟩ "openai" "no-such-model"
        [("callbacks", PyVal.plist [])] =
      (.error ⟨"ModelInitializationError", "Unsupported model: no-such-model"⟩, ⟨[], 0⟩) ∧
    ("TypeError" : String) ≠ "ModelInitializationError" ∧
    ("TypeError" : String) ≠ "APIKeyError" ∧ ("TypeError" : String) ≠ "RateLimitError" :=
  ⟨by decide, by decide, by decide, by decide, by decide⟩

/-- C6 (behaviour at the failing input): for the keyless vendor `ollama`
the factory still executes the API-key check — `os.getenv("")` yields
nothing, `APIKeyError` is raised and translated — so `get_model` fails even
though the vendor declares no API-key field; other vendors fail likewise
when their key is absent.  The environment `fun _ => none` models a process
with no environment variables at all. -/
theorem C6_ollama_api_key_check_not_skipped :
    (getModel (fun _ => none) pyHashStr ⟨[], 0⟩ "ollama" "llama3.1" []).1 =
      .error ⟨"ModelInitializationError",
        "Ollama error: Ollama API key not found. Please set OPENAI_API_KEY environment variable."⟩ ∧
    (getModel (fun _ => none) pyHashStr ⟨[], 0⟩ "openai" "gpt-4.1-mini" []).1 =
      .error ⟨"ModelInitializationError",
        "OpenAI error: OpenAI API key not found. Please set OPENAI_API_KEY environment variable."⟩ :=
  ⟨by decide, by decide⟩

/-- C5 (behaviour at the failing input): a feedback submission with nine
ratings makes the endpoint raise `HTTPException(400, "Submitted invalid
ratings")`, but its own blanket `except Exception` re-wraps it, so the
client receives HTTP 500 with detail `"Encountered error: 400: Submitted
invalid ratings"`; no row is inserted, for any database state. -/
theorem C5_feedback_nine_ratings_wrapped_to_500 :
    ∀ (insert : Except PyExc Unit) (rows : List (List Int × String)) (comments : String),
      submitFeedback insert rows (some [1, 2, 3, 4, 5, 6, 7, 8, 9]) comments =
        ⟨500, .errorDetail "Encountered error: 400: Submitted invalid ratings", rows⟩ :=
  fun _ _ _ => rfl

/-- A successful label extraction returns exactly the ordered first keys of
the components, and every component was non-empty. -/
theorem extractLabels_ok (cs : List (List (String × String))) (ls : List String)
    (h : extractLabels cs = .ok ls) :
    ls = cs.map componentLabel ∧ ∀ c ∈ cs, c ≠ [] := by
  induction cs generalizing ls with
  | nil =>
    simp only [extractLabels, Except.ok.injEq] at h
    subst h
    simp
  | cons c t ih =>
    unfold extractLabels at h
    cases hc : c.head? with
    | none => rw [hc] at h; exact absurd h (by simp)
    | some kv =>
      rw [hc] at h
      cases hrest : extractLabels t with
      | error e => rw [hrest] at h; exact absurd h (by simp)
      | ok ls0 =>
        rw [hrest] at h
        simp only [Except.ok.injEq] at h
        obtain ⟨hmap, hne⟩ := ih ls0 hrest
        subst h hmap
        constructor
        · have hcl : componentLabel c = kv.1 := by
            cases c with
            | nil => simp at hc
            | cons x xs =>
              simp only [List.head?_cons, Option.some.injEq] at hc
              subst hc
              rfl
          simp [hcl]
        · intro d hd
          cases hd with
          | head => intro hnil; rw [hnil] at hc; simp at hc
          | tail _ hm => exact hne d hm

/-- One part-processing step preserves the invariant. -/
theorem processPart_invariant (acc d : DecompData) (p : PyPart)
    (hacc : decompInvariant acc) (h : processPart acc p = .ok d) : decompInvariant d := by
  unfold processPart at h
  by_cases he : p.components.isEmpty
  · rw [if_pos he] at h
    simp only [Except.ok.injEq] at h
    exact h ▸ hacc
  · rw [if_neg he] at h
    cases hl : extractLabels p.components with
    | error e => rw [hl] at h; exact absurd h (by simp)
    | ok ls =>
      rw [hl] at h
      simp only [Except.ok.injEq] at h
      obtain ⟨hmap, hne⟩ := extractLabels_ok p.components ls hl
      subst h
      exact Or.inr ⟨p.components, rfl, by simpa [List.isEmpty_iff] using he, hne, by rw [hmap]⟩

/-- Binding an error in the `Except` monad is the error itself. -/
theorem exceptErrorBind {α β : Type} (e : PyExc) (k : α → Except PyExc β) :
    (Except.error e >>= k) = Except.error e := rfl

/-- Binding a success in the `Except` monad applies the continuation. -/
theorem exceptOkBind {α β : Type} (a : α) (k : α → Except PyExc β) :
    (Except.ok a >>= k) = k a := rfl

/-- The fold over all parts preserves the invariant. -/
theorem foldParts_invariant (parts : List PyPart) :
    ∀ acc d, decompInvariant acc → parts.foldlM processPart acc = .ok d →
      decompInvariant d := by
  induction parts with
  | nil =>
    intro acc d hacc h
    simp only [List.foldlM_nil, pure, Except.pure, Except.ok.injEq] at h
    exact h ▸ hacc
  | cons p t ih =>
    intro acc d hacc h
    rw [List.foldlM_cons] at h
    cases hp : processPart acc p with
    | error e =>
      rw [hp, exceptErrorBind] at h
      exact absurd h (by simp)
    | ok acc1 =>
      rw [hp, exceptOkBind] at h
      exact ih acc1 d (processPart_invariant acc acc1 p hacc hp) h

/-- C7: `outputStructure` is always the ordered list of component labels,
recomputed from `components`' order: in the response assembled by the
decomposition server (server.py lines 186-205) it is exactly
`components.map componentLabel` with the same length as `components`, and
in every payload the gateway merges (app.py lines 202-216) a present
`components` list comes with `outputStructure` equal to its ordered label
list. -/
theorem C7_output_structure_is_label_list :
    (∀ rt cs r, assembleResponseData rt cs = .ok r →
      r.components = cs ∧ r.outputStructure = cs.map componentLabel ∧
      r.outputStructure.length = r.components.length ∧ ∀ c ∈ cs, c ≠ []) ∧
    (∀ t d, processDecomposedResponse t = .ok d →
      (d.components = none ∧ d.outputStructure = none) ∨
      (∃ cs, d.components = some cs ∧ cs ≠ [] ∧ (∀ c ∈ cs, c ≠ []) ∧
        d.outputStructure = some (cs.map componentLabel))) := by
  constructor
  · intro rt cs r h
    unfold assembleResponseData at h
    by_cases he : cs.isEmpty
    · rw [if_pos he] at h
      simp only [Except.ok.injEq] at h
      subst h
      have hnil : cs = [] := by simpa [List.isEmpty_iff] using he
      subst hnil
      simp
    · rw [if_neg he] at h
      cases hl : extractLabels cs with
      | error e => rw [hl] at h; exact absurd h (by simp)
      | ok ls =>
        rw [hl] at h
        simp only [Except.ok.injEq] at h
        obtain ⟨hmap, hne⟩ := extractLabels_ok cs ls hl
        subst h
        exact ⟨rfl, by simpa using hmap, by simp [hmap], hne⟩
  · intro t d h
    unfold processDecomposedResponse at h
    cases hA : t.artifacts with
    | none =>
      rw [hA] at h
      simp only [Except.ok.injEq] at h
      exact h ▸ Or.inl ⟨rfl, rfl⟩
    | some arts =>
      rw [hA] at h
      exact foldParts_invariant _ _ d (Or.inl ⟨rfl, rfl⟩) h

/-- Witness for C7 on a concrete two-component decomposition. -/
theorem C7_output_structure_is_label_list_witness :
    (ServerRespData.mk [[("Greeting", "Hello there.")], [("Body", "All good.")]] "document"
        ["Greeting", "Body"]).components =
        [[("Greeting", "Hello there.")], [("Body", "All good.")]] ∧
      (ServerRespData.mk [[("Greeting", "Hello there.")], [("Body", "All good.")]] "document"
        ["Greeting", "Body"]).outputStructure =
        [[("Greeting", "Hello there.")], [("Body", "All good.")]].map componentLabel ∧
      (ServerRespData.mk [[("Greeting", "Hello there.")], [("Body", "All good.")]] "document"
        ["Greeting", "Body"]).outputStructure.length =
        (ServerRespData.mk [[("Greeting", "Hello there.")], [("Body", "All good.")]] "document"
          ["Greeting", "Body"]).components.length ∧
      ∀ c ∈ [[("Greeting", "Hello there.")], [("Body", "All good.")]], c ≠ [] :=
  C7_output_structure_is_label_list.1 "Hello there. All good."
    [[("Greeting", "Hello there.")], [("Body", "All good.")]]
    (ServerRespData.mk [[("Greeting", "Hello there.")], [("Body", "All good.")]] "document"
      ["Greeting", "Body"]) (by decide)

/-- A binding already present in the cache survives an append. -/
theorem cacheLookup_append_some (c : List (String × Handle)) (e : String × Handle)
    (k : String) (h : Handle) (hl : cacheLookup c k = some h) :
    cacheLookup (c ++ [e]) k = some h := by
  induction c with
  | nil => simp [cacheLookup] at hl
  | cons p t ih =>
    obtain ⟨k1, h1⟩ := p
    rw [List.cons_append]
    by_cases hk : k1 = k
    · simp only [cacheLookup, if_pos hk] at hl ⊢
      exact hl
    · simp only [cacheLookup, if_neg hk] at hl ⊢
      exact ih hl

/-- After inserting a binding for an absent key, looking it up finds it. -/
theorem cacheLookup_append_self (c : List (String × Handle)) (k : String) (m : Handle)
    (hl : cacheLookup c k = none) : cacheLookup (c ++ [(k, m)]) k = some m := by
  induction c with
  | nil => simp [cacheLookup]
  | cons p t ih =>
    obtain ⟨k1, h1⟩ := p
    rw [List.cons_append]
    by_cases hk : k1 = k
    · simp only [cacheLookup, if_pos hk] at hl
      exact absurd hl (by simp)
    · simp only [cacheLookup, if_neg hk] at hl ⊢
      exact ih hl

/-- Characterisation of a successful `get_model` call: the vendor and
model validated, the settings hashed, and the handle came either from a
cache hit (state unchanged) or from a fresh construction appended to the
cache. -/
theorem getModel_ok_char (env : String → Option String) (strHash : String → Int)
    (st : FactoryState) (vendor modelId : String) (settings : List (String × PyVal))
    (h : Handle) (st1 : FactoryState)
    (hcall : getModel env strHash st vendor modelId settings = (.ok h, st1)) :
    ∃ v hv, vendorLookup (pyLower vendor) = some v ∧ v.modelIds.contains modelId = true ∧
      hashFrozensetItems strHash settings = some hv ∧
      ((cacheLookup st.cache (pyLower vendor ++ ":" ++ modelId ++ ":" ++ toString hv) = some h ∧
          st1 = st) ∨
        (cacheLookup st.cache (pyLower vendor ++ ":" ++ modelId ++ ":" ++ toString hv) = none ∧
          createModelClass env v modelId settings st.nextId = .ok h ∧
          st1 = ⟨st.cache ++ [(pyLower vendor ++ ":" ++ modelId ++ ":" ++ toString hv, h)],
            st.nextId + 1⟩)) := by
  unfold getModel at hcall
  cases hV : vendorLookup (pyLower vendor) with
  | none => rw [hV] at hcall; exact absurd hcall (by simp)
  | some v =>
    rw [hV] at hcall
    dsimp only at hcall
    by_cases hc : v.modelIds.contains modelId = true
    · rw [if_pos hc] at hcall
      cases hH : hashFrozensetItems strHash settings with
      | none => rw [hH] at hcall; exact absurd hcall (by simp)
      | some hv =>
        rw [hH] at hcall
        dsimp only at hcall
        cases hL : cacheLookup st.cache (pyLower vendor ++ ":" ++ modelId ++ ":" ++ toString hv) with
        | some m =>
          rw [hL] at hcall
          dsimp only at hcall
          simp only [Prod.mk.injEq, Except.ok.injEq] at hcall
          exact ⟨v, hv, rfl, hc, rfl, Or.inl ⟨by rw [hL, hcall.1], hcall.2.symm⟩⟩
        | none =>
          rw [hL] at hcall
          dsimp only at hcall
          cases hC : createModelClass env v modelId settings st.nextId with
          | error e => rw [hC] at hcall; exact absurd hcall (by simp)
          | ok m =>
            rw [hC] at hcall
            dsimp only at hcall
            simp only [Prod.mk.injEq, Except.ok.injEq] at hcall
            exact ⟨v, hv, rfl, hc, rfl, Or.inr ⟨hL, by rw [hC, hcall.1],
              by rw [← hcall.2, ← hcall.1]⟩⟩
    · rw [if_neg hc] at hcall
      exact absurd hcall (by simp)

/-- Evaluation of `get_model` on a cache hit: the cached handle is returned
and the state is unchanged. -/
theorem getModel_hit (env : String → Option String) (strHash : String → Int)
    (st : FactoryState) (vendor modelId : String) (settings : List (String × PyVal))
    (v : VendorSpec) (hv : Int) (m : Handle)
    (hV : vendorLookup (pyLower vendor) = some v) (hc : v.modelIds.contains modelId = true)
    (hH : hashFrozensetItems strHash settings = some hv)
    (hL : cacheLookup st.cache (pyLower vendor ++ ":" ++ modelId ++ ":" ++ toString hv) = some m) :
    getModel env strHash st vendor modelId settings = (.ok m, st) := by
  unfold getModel
  rw [hV]
  dsimp only
  rw [if_pos hc, hH]
  dsimp only
  rw [hL]

/-- C3 (amended): a successful `get_model` call is cache-idempotent — the
same arguments immediately resolve to the identical handle instance with no
further construction and no state change — no existing cache binding is
ever replaced, and any settings whose `frozenset` hash equals that of the
original settings resolve to the same cached instance (the cache key being
`vendor:model_id:hash(frozenset(settings.items()))`, distinct keys arise
only from distinct hashes). -/
theorem C3_model_cache (env : String → Option String) (strHash : String → Int)
    (st : FactoryState) (vendor modelId : String) (settings : List (String × PyVal))
    (h : Handle) (st1 : FactoryState)
    (hcall : getModel env strHash st vendor modelId settings = (.ok h, st1)) :
    getModel env strHash st1 vendor modelId settings = (.ok h, st1) ∧
    (∀ k h0, cacheLookup st.cache k = some h0 → cacheLookup st1.cache k = some h0) ∧
    (∀ settings2,
      hashFrozensetItems strHash settings2 = hashFrozensetItems strHash settings →
      getModel env strHash st1 vendor modelId settings2 = (.ok h, st1)) := by
  obtain ⟨v, hv, hV, hc, hH, hcase⟩ :=
    getModel_ok_char env strHash st vendor modelId settings h st1 hcall
  have hL1 : cacheLookup st1.cache
      (pyLower vendor ++ ":" ++ modelId ++ ":" ++ toString hv) = some h := by
    cases hcase with
    | inl hhit => rw [hhit.2]; exact hhit.1
    | inr hmiss =>
      rw [hmiss.2.2]
      exact cacheLookup_append_self st.cache _ h hmiss.1
  refine ⟨getModel_hit env strHash st1 vendor modelId settings v hv h hV hc hH hL1, ?_, ?_⟩
  · intro k h0 hk
    cases hcase with
    | inl hhit => rw [hhit.2]; exact hk
    | inr hmiss => rw [hmiss.2.2]; exact cacheLookup_append_some st.cache _ k h0 hk
  · intro settings2 heq
    rw [hH] at heq
    exact getModel_hit env strHash st1 vendor modelId settings2 v hv h hV hc heq hL1

/-- Witness for C3: a second identical resolution from the post-call state
returns the identical outcome. -/
theorem C3_model_cache_witness :
    getModel (fun _ => some "sk-test") pyHashStr
        (getModel (fun _ => some "sk-test") pyHashStr ⟨[], 0⟩ "openai" "gpt-4.1-mini"
          [("temperature", PyVal.pint 1)]).2
        "openai" "gpt-4.1-mini" [("temperature", PyVal.pint 1)] =
      ((getModel (fun _ => some "sk-test") pyHashStr ⟨[], 0⟩ "openai" "gpt-4.1-mini"
          [("temperature", PyVal.pint 1)]).1,
        (getModel (fun _ => some "sk-test") pyHashStr ⟨[], 0⟩ "openai" "gpt-4.1-mini"
          [("temperature", PyVal.pint 1)]).2) := by
  have hok : (getModel (fun _ => some "sk-test") pyHashStr ⟨[], 0⟩ "openai" "gpt-4.1-mini"
      [("temperature", PyVal.pint 1)]).1.isOk = true := by decide
  cases hcall : getModel (fun _ => some "sk-test") pyHashStr ⟨[], 0⟩ "openai" "gpt-4.1-mini"
      [("temperature", PyVal.pint 1)] with
  | mk r st1 =>
    cases r with
    | error e =>
      rw [hcall] at hok
      simp [Except.isOk, Except.toBool] at hok
    | ok h =>
      exact (C3_model_cache (fun _ => some "sk-test") pyHashStr ⟨[], 0⟩ "openai" "gpt-4.1-mini"
        [("temperature", PyVal.pint 1)] h st1 hcall).1

/-- The cache-key hash collision is independent of the randomised string
hash: for every string-hash seed, the settings `{"temperature": -1}` and
`{"temperature": -2}` hash identically, because CPython's integer hash
maps both -1 and -2 to -2. -/
theorem hashFrozensetItems_collision_any_seed (strHash : String → Int) :
    hashFrozensetItems strHash [("temperature", PyVal.pint (-1))] =
      hashFrozensetItems strHash [("temperature", PyVal.pint (-2))] := by
  have h12 : pyHashInt (-1) = pyHashInt (-2) := by decide
  simp only [hashFrozensetItems, itemHashes, pyHashVal, h12]

/-- Counterexample to C3 as stated: changing the one settings value from
-1 to -2 does not change the cache key — the two settings dictionaries
hash identically — and the second `get_model` call returns the very handle
instance cached for the first settings. -/
theorem C3_cache_key_collision_counterexample :
    hashFrozensetItems pyHashStr [("temperature", PyVal.pint (-1))] =
      hashFrozensetItems pyHashStr [("temperature", PyVal.pint (-2))] ∧
    (getModel (fun _ => some "sk-test") pyHashStr
        (getModel (fun _ => some "sk-test") pyHashStr ⟨[], 0⟩ "openai" "gpt-4.1-mini"
          [("temperature", PyVal.pint (-1))]).2
        "openai" "gpt-4.1-mini" [("temperature", PyVal.pint (-2))]).1 =
      (getModel (fun _ => some "sk-test") pyHashStr ⟨[], 0⟩ "openai" "gpt-4.1-mini"
        [("temperature", PyVal.pint (-1))]).1 ∧
    ((-1 : Int) ≠ (-2 : Int)) :=
  ⟨by decide, by decide, by decide⟩

/-- Evaluation of the `/chat` body when validation passes, the model
resolves, the chain builds, the model invocation returns `content`, and
decomposition — if requested at all — fails: the response is HTTP 200 with
the base payload and without the decomposition keys. -/
theorem chatInner_no_components (E : ChatEnv) (st : FactoryState) (req : ChatRequest)
    (content : String) (exc : PyExc)
    (hmsg : ¬req.message = "") (hmod : ¬req.modelId = "") (hven : ¬req.vendor = "")
    (hllm : ((getModel E.env E.strHash st req.vendor req.modelId req.settings).1).isOk = true)
    (hchain : E.createChainOk = .ok ())
    (hinv : ∀ l sp tid input, E.invoke l sp tid input = .ok content)
    (hdec : req.decompose = true → ∀ c cid ut, E.decomposeCall c cid ut = .error exc) :
    chatInner E st req =
      .ok ⟨200, .payload ⟨content, req.modelId, req.vendor,
        (if req.conversationId.getD E.freshConvId = "" then E.freshConvId2
          else req.conversationId.getD E.freshConvId), none, none, none⟩⟩ := by
  unfold chatInner
  rw [if_neg hmsg, if_neg hmod, if_neg hven]
  dsimp only
  cases hG : (getModel E.env E.strHash st req.vendor req.modelId req.settings).1 with
  | error e =>
    rw [hG] at hllm
    simp [Except.isOk, Except.toBool] at hllm
  | ok llm =>
    dsimp only
    rw [hchain]
    dsimp only
    rw [hinv]
    dsimp only
    cases hb : req.decompose with
    | false => rfl
    | true =>
      rw [hdec hb]
      rfl

/-- C1: when decomposition is enabled and the decomposition call fails with
any exception, `/chat` still returns HTTP 200 with the model's text, model,
vendor, and conversation id, and with the `components`/`outputType`/
`outputStructure` keys absent; the response is identical to that of the
same request with decomposition disabled, so the failure never changes the
chat answer (app.py lines 404-438). -/
theorem C1_decomposition_failure_isolated (E : ChatEnv) (st : FactoryState) (req : ChatRequest)
    (content : String) (exc : PyExc)
    (_hdecomp : req.decompose = true)
    (hmsg : ¬req.message = "") (hmod : ¬req.modelId = "") (hven : ¬req.vendor = "")
    (hllm : ((getModel E.env E.strHash st req.vendor req.modelId req.settings).1).isOk = true)
    (hchain : E.createChainOk = .ok ())
    (hinv : ∀ l sp tid input, E.invoke l sp tid input = .ok content)
    (hfail : ∀ c cid ut, E.decomposeCall c cid ut = .error exc) :
    chatEndpoint E st req =
      ⟨200, .payload ⟨content, req.modelId, req.vendor,
        (if req.conversationId.getD E.freshConvId = "" then E.freshConvId2
          else req.conversationId.getD E.freshConvId), none, none, none⟩⟩ ∧
    chatEndpoint E st req = chatEndpoint E st { req with decompose := false } := by
  have h1 := chatInner_no_components E st req content exc hmsg hmod hven hllm hchain hinv
    (fun _ => hfail)
  have h2 := chatInner_no_components E st { req with decompose := false } content exc hmsg hmod
    hven hllm hchain hinv (fun hb => nomatch hb)
  constructor
  · unfold chatEndpoint
    rw [h1]
  · unfold chatEndpoint
    rw [h1, h2]

/-- Witness for C1: a concrete chat request with decomposition enabled
whose decomposition call times out still gets the plain 200 answer. -/
theorem C1_decomposition_failure_isolated_witness :
    chatEndpoint
        ⟨fun _ => some "sk-test", pyHashStr, fun _ => true, "cid-fresh", "cid-fresh2",
          .ok (), fun _ _ _ _ => .ok "Hello!",
          fun _ _ _ => .error ⟨"ReadTimeout", "timed out"⟩⟩
        ⟨[], 0⟩
        ⟨"Hi", "gpt-4.1-mini", "tok", "openai", [], none, none, true, some "c1"⟩ =
      ⟨200, .payload ⟨"Hello!", "gpt-4.1-mini", "openai", "c1", none, none, none⟩⟩ :=
  (C1_decomposition_failure_isolated
    ⟨fun _ => some "sk-test", pyHashStr, fun _ => true, "cid-fresh", "cid-fresh2",
      .ok (), fun _ _ _ _ => .ok "Hello!",
      fun _ _ _ => .error ⟨"ReadTimeout", "timed out"⟩⟩
    ⟨[], 0⟩
    ⟨"Hi", "gpt-4.1-mini", "tok", "openai", [], none, none, true, some "c1"⟩
    "Hello!" ⟨"ReadTimeout", "timed out"⟩ rfl (by decide) (by decide) (by decide)
    (by decide) rfl (fun _ _ _ _ => rfl) (fun _ _ _ => rfl)).1

/-- C8: when `responseFormat` is a string that `json.loads` rejects, the
structured-output augmentation is skipped entirely — the system prompt and
the model handle are unchanged — and the request proceeds as a plain chat
that still returns HTTP 200, identically to the same request without a
`responseFormat`; conversely the handle is swapped only when the format is
non-empty, differs from the `"{}"` sentinel and parses, and the schema
instruction is appended only when additionally the system prompt does not
already mention "json" (app.py lines 331-353). -/
theorem C8_malformed_response_format_skipped (E : ChatEnv) (st : FactoryState)
    (req : ChatRequest) (s content : String)
    (hrf : req.responseFormat = some s) (hbad : E.jsonValid s = false)
    (hmsg : ¬req.message = "") (hmod : ¬req.modelId = "") (hven : ¬req.vendor = "")
    (hllm : ((getModel E.env E.strHash st req.vendor req.modelId req.settings).1).isOk = true)
    (hchain : E.createChainOk = .ok ())
    (hinv : ∀ l sp tid input, E.invoke l sp tid input = .ok content)
    (hdec : req.decompose = false) :
    (∀ (sp : String) (llm : Handle),
      augmentStep E.jsonValid req.vendor sp req.responseFormat llm = (sp, .plain llm)) ∧
    chatEndpoint E st req =
      ⟨200, .payload ⟨content, req.modelId, req.vendor,
        (if req.conversationId.getD E.freshConvId = "" then E.freshConvId2
          else req.conversationId.getD E.freshConvId), none, none, none⟩⟩ ∧
    chatEndpoint E st req = chatEndpoint E st { req with responseFormat := none } ∧
    (∀ (jv : String → Bool) (vendor sp : String) (rf : Option String) (llm : Handle),
      (augmentStep jv vendor sp rf llm).2 ≠ .plain llm →
      ∃ t, rf = some t ∧ t ≠ "" ∧ t ≠ "\x7b\x7d" ∧ jv t = true) ∧
    (∀ (jv : String → Bool) (vendor sp : String) (rf : Option String) (llm : Handle),
      (augmentStep jv vendor sp rf llm).1 ≠ sp →
      ∃ t, rf = some t ∧ t ≠ "" ∧ t ≠ "\x7b\x7d" ∧ jv t = true ∧
        strContains (pyLower sp) "json" = false ∧
        (augmentStep jv vendor sp rf llm).1 = sp ++ "\n\n" ++ structuredRequestBlock t) := by
  have hdd : req.decompose = true → ∀ c cid ut, E.decomposeCall c cid ut = .error ⟨"", ""⟩ :=
    fun hb => absurd hb (by simp [hdec])
  have h1 := chatInner_no_components E st req content ⟨"", ""⟩ hmsg hmod hven hllm hchain hinv hdd
  have h2 := chatInner_no_components E st { req with responseFormat := none } content ⟨"", ""⟩
    hmsg hmod hven hllm hchain hinv hdd
  refine ⟨?_, ?_, ?_, ?_, ?_⟩
  · intro sp llm
    rw [hrf]
    unfold augmentStep
    dsimp only
    by_cases hco : (s ≠ "" && s ≠ "\x7b\x7d") = true
    · rw [if_pos hco]
      have hb : ¬(E.jsonValid s = true) := by simp [hbad]
      rw [if_neg hb]
    · rw [if_neg hco]
  · unfold chatEndpoint
    rw [h1]
  · unfold chatEndpoint
    rw [h1, h2]
  · intro jv vendor sp rf llm hne
    unfold augmentStep at hne
    cases rf with
    | none => exact absurd rfl hne
    | some t =>
      dsimp only at hne
      by_cases hco : (t ≠ "" && t ≠ "\x7b\x7d") = true
      · rw [if_pos hco] at hne
        by_cases hjv : jv t = true
        · have hts : t ≠ "" ∧ t ≠ "\x7b\x7d" := by simpa using hco
          exact ⟨t, rfl, hts.1, hts.2, hjv⟩
        · rw [if_neg hjv] at hne
          exact absurd rfl hne
      · rw [if_neg hco] at hne
        exact absurd rfl hne
  · intro jv vendor sp rf llm hne
    unfold augmentStep at hne
    cases rf with
    | none => exact absurd rfl hne
    | some t =>
      dsimp only at hne
      by_cases hco : (t ≠ "" && t ≠ "\x7b\x7d") = true
      · rw [if_pos hco] at hne
        by_cases hjv : jv t = true
        · rw [if_pos hjv] at hne
          dsimp only at hne
          by_cases hjson : strContains (pyLower sp) "json" = true
          · rw [if_pos hjson] at hne
            exact absurd rfl hne
          · have hts : t ≠ "" ∧ t ≠ "\x7b\x7d" := by simpa using hco
            refine ⟨t, rfl, hts.1, hts.2, hjv, by simpa using hjson, ?_⟩
            unfold augmentStep
            dsimp only
            rw [if_pos hco, if_pos hjv]
            dsimp only
            rw [if_neg hjson]
        · rw [if_neg hjv] at hne
          exact absurd rfl hne
      · rw [if_neg hco] at hne
        exact absurd rfl hne

/-- Witness for C8: a concrete request whose `responseFormat` is the
invalid JSON string left brace plus "bad" still gets the plain 200 chat
answer. -/
theorem C8_malformed_response_format_skipped_witness :
    chatEndpoint
        ⟨fun _ => some "sk-test", pyHashStr, fun _ => false, "cid-fresh", "cid-fresh2",
          .ok (), fun _ _ _ _ => .ok "Plain answer.", fun _ _ _ => .error ⟨"", ""⟩⟩
        ⟨[], 0⟩
        ⟨"Hi", "gpt-4.1-mini", "tok", "openai", [], none, some "\x7bbad", false, some "c1"⟩ =
      ⟨200, .payload ⟨"Plain answer.", "gpt-4.1-mini", "openai", "c1", none, none, none⟩⟩ :=
  (C8_malformed_response_format_skipped
    ⟨fun _ => some "sk-test", pyHashStr, fun _ => false, "cid-fresh", "cid-fresh2",
      .ok (), fun _ _ _ _ => .ok "Plain answer.", fun _ _ _ => .error ⟨"", ""⟩⟩
    ⟨[], 0⟩
    ⟨"Hi", "gpt-4.1-mini", "tok", "openai", [], none, some "\x7bbad", false, some "c1"⟩
    "\x7bbad" "Plain answer." rfl rfl (by decide) (by decide) (by decide) (by decide) rfl
    (fun _ _ _ _ => rfl) rfl).2.1
